import Mathlib

/-!
Verification development for the Spotify data exporter script
(`spotifyexporter.py`). The script is shallowly embedded: each Python
function becomes a Lean definition; `while True` loops become fuel-indexed
recursions returning `none` when the fuel runs out (the Python loop would
still be running); Python exceptions raised by API calls are modeled with
`Except String`; a dictionary key that the code reads with `.get(key,
default)` is modeled as an `Option` field, while a key read with plain
indexing (which raises `KeyError` when absent) is modeled as a mandatory
field.
-/

namespace SpotifyExporter

/-- A response dictionary from which the code reads only the "items" key,
possibly absent (the code uses `response.get('items', [])`). -/
structure ApiResponse (α : Type) where
  items : Option (List α)

/-- `response.get('items', [])`. -/
def ApiResponse.getItems {α : Type} (r : ApiResponse α) : List α :=
  r.items.getD []

/-- A page-fetch operation: offset and limit to a response, possibly
raising (modeled with `Except`). -/
def PageFetch (α : Type) : Type :=
  Nat → Nat → Except String (ApiResponse α)

/-- The body of `paginate_results`' `while True` loop, with fuel. The
accumulator `acc` models `results`, `calls` counts the fetch invocations
made so far (instrumentation for the call-count properties). Returns
`none` when the fuel is exhausted before the loop ends. -/
def paginateAux {α : Type} (fetch : PageFetch α) (limit : Nat) :
    Nat → Nat → List α → Nat → Option (Except String (List α × Nat))
  | 0, _, _, _ => none
  | fuel + 1, offset, acc, calls =>
    match fetch offset limit with
    | .error e => some (.error e)
    | .ok response =>
      let items := response.getItems
      if items.length < limit then some (.ok (acc ++ items, calls + 1))
      else paginateAux fetch limit fuel (offset + limit) (acc ++ items) (calls + 1)

/-- `paginate_results(fetch_function, limit=50)`: offsets start at 0 and
step by `limit`; the loop ends when a page has fewer than `limit` items.
The second component of the result is the number of fetch calls made. -/
def paginate_results {α : Type} (fuel : Nat) (fetch : PageFetch α)
    (limit : Nat := 50) : Option (Except String (List α × Nat)) :=
  paginateAux fetch limit fuel 0 [] 0

/-- The comma-and-space join of a list of names. -/
def joinComma (ss : List String) : String :=
  String.intercalate ", " ss

/-- `profile['followers']` / `art['followers']`: only `['total']` is read. -/
structure Followers where
  total : Nat

/-- The user profile dictionary; all five reads are plain indexing. -/
structure Profile where
  id : String
  display_name : String
  email : String
  country : String
  followers : Followers

/-- An artist reference inside a track or album: only `['name']` is read. -/
structure ArtistRef where
  name : String

/-- A track's album: `['name']` and `['release_date']` are read. -/
structure AlbumRef where
  name : String
  release_date : String

/-- A full track object as read by the saved-tracks and recently-played
fetchers (all plain indexing). -/
structure Track where
  name : String
  artists : List ArtistRef
  album : AlbumRef
  duration_ms : Nat

/-- One item of the saved-tracks endpoint: `item['track']`. -/
structure SavedTrackItem where
  track : Track

/-- One item of the recently-played endpoint. -/
structure PlayedItem where
  track : Track
  played_at : String

/-- A followed or top artist object. -/
structure RawArtist where
  name : String
  id : String
  genres : List String
  followers : Followers
  popularity : Nat

/-- `resp['artists']` of the followed-artists endpoint: `['items']` is
read with plain indexing. -/
structure ArtistsBlock where
  items : List RawArtist

/-- A followed-artists response: `resp['artists']`. -/
structure FollowedArtistsResponse where
  artists : ArtistsBlock

/-- `pl['tracks']`: only `['total']` is read. -/
structure PlaylistTracksRef where
  total : Nat

/-- A playlist object; `description` is read with
`.get('description', '')`, the rest with plain indexing. -/
structure RawPlaylist where
  id : String
  name : String
  description : Option String
  tracks : PlaylistTracksRef
  public : Bool

/-- `item['added_by']` of a playlist item; its `id` is read with
`.get('id', 'Unknown')`. -/
structure AddedBy where
  id : Option String

/-- An artist inside a playlist item's track: `.get('name', '')`. -/
structure ItemArtist where
  name : Option String

/-- An album inside a playlist item's track: `.get('name', '')`. -/
structure ItemAlbum where
  name : Option String

/-- A playlist item's track; every field is read with `.get`. -/
structure ItemTrack where
  name : Option String
  artists : Option (List ItemArtist)
  album : Option ItemAlbum
  duration_ms : Option Nat

/-- One item of the playlist-items endpoint; all three fields are read
with `.get` (with `item.get('added_by') or {}` for `added_by`). -/
structure RawPlaylistItem where
  track : Option ItemTrack
  added_by : Option AddedBy
  added_at : Option String

/-- A saved album object (all plain indexing). -/
structure FullAlbum where
  name : String
  artists : List ArtistRef
  release_date : String
  total_tracks : Nat

/-- One item of the saved-albums endpoint: `item['album']`. -/
structure SavedAlbumItem where
  album : FullAlbum

/-- The authenticated client `sp`: one field per API method the script
calls, each possibly raising. `current_user_followed_artists` takes the
limit and the `after` cursor; `playlist_items` takes the playlist id,
offset and limit. -/
structure SpotifyClient where
  current_user : Except String Profile
  current_user_saved_tracks : PageFetch SavedTrackItem
  current_user_recently_played : Nat → Except String (ApiResponse PlayedItem)
  current_user_followed_artists : Nat → Option String → Except String FollowedArtistsResponse
  current_user_playlists : PageFetch RawPlaylist
  playlist_items : String → Nat → Nat → Except String (ApiResponse RawPlaylistItem)
  current_user_top_artists : PageFetch RawArtist
  current_user_saved_albums : PageFetch SavedAlbumItem

/-- The row produced by `fetch_user_profile`. -/
structure ProfileRow where
  userId : String
  displayName : String
  email : String
  country : String
  followers : Nat

/-- `fetch_user_profile`. -/
def fetch_user_profile (c : SpotifyClient) : Except String ProfileRow :=
  match c.current_user with
  | .error e => .error e
  | .ok profile =>
    .ok { userId := profile.id
          displayName := profile.display_name
          email := profile.email
          country := profile.country
          followers := profile.followers.total }

/-- A row of the saved-tracks dataset. -/
structure SavedTrackRow where
  trackName : String
  artist : String
  album : String
  releaseDate : String
  durationMs : Nat

/-- The per-item projection inside `fetch_saved_tracks`. -/
def savedTrackRow (item : SavedTrackItem) : SavedTrackRow :=
  { trackName := item.track.name
    artist := joinComma (item.track.artists.map ArtistRef.name)
    album := item.track.album.name
    releaseDate := item.track.album.release_date
    durationMs := item.track.duration_ms }

/-- `fetch_saved_tracks`: paginates `current_user_saved_tracks` with the
default limit 50 and projects every item. -/
def fetch_saved_tracks (c : SpotifyClient) (fuel : Nat) :
    Option (Except String (List SavedTrackRow)) :=
  match paginate_results fuel c.current_user_saved_tracks 50 with
  | none => none
  | some (.error e) => some (.error e)
  | some (.ok (items, _)) => some (.ok (items.map savedTrackRow))

/-- A row of the recently-played dataset. -/
structure RecentRow where
  trackName : String
  artist : String
  album : String
  playedAt : String

/-- The per-item projection inside `fetch_recently_played`. -/
def recentRow (item : PlayedItem) : RecentRow :=
  { trackName := item.track.name
    artist := joinComma (item.track.artists.map ArtistRef.name)
    album := item.track.album.name
    playedAt := item.played_at }

/-- `fetch_recently_played`: a single call with limit 50; any raised
error is caught and an empty list is returned. -/
def fetch_recently_played (c : SpotifyClient) : List RecentRow :=
  match c.current_user_recently_played 50 with
  | .error _ => []
  | .ok resp => resp.getItems.map recentRow

/-- `batch[-1]['id']`; the loop only evaluates this when the batch is
known to be nonempty (its length equals the limit 50). -/
def lastArtistId (batch : List RawArtist) : String :=
  (batch.getLastD { name := "", id := "", genres := [], followers := ⟨0⟩, popularity := 0 }).id

/-- The `while True` loop of `fetch_followed_artists`, with fuel. `acc`
models `items`; `trace` records the `after` cursor passed to each fetch
call (instrumentation for the cursor-advancement property). -/
def followedLoop (fetch : Option String → Except String FollowedArtistsResponse) :
    Nat → Option String → List RawArtist → List (Option String) →
    Option (Except String (List RawArtist × List (Option String)))
  | 0, _, _, _ => none
  | fuel + 1, after, acc, trace =>
    match fetch after with
    | .error e => some (.error e)
    | .ok resp =>
      let batch := resp.artists.items
      if batch.length < 50 then some (.ok (acc ++ batch, trace ++ [after]))
      else followedLoop fetch fuel (some (lastArtistId batch)) (acc ++ batch) (trace ++ [after])

/-- A row of the followed-artists dataset. -/
structure ArtistRow where
  artistName : String
  artistId : String
  genres : String
  followers : Nat
  popularity : Nat

/-- The per-artist projection inside `fetch_followed_artists`. -/
def artistRow (art : RawArtist) : ArtistRow :=
  { artistName := art.name
    artistId := art.id
    genres := joinComma art.genres
    followers := art.followers.total
    popularity := art.popularity }

/-- `fetch_followed_artists`: cursor loop starting with `after = None`,
then projection of every accumulated artist. -/
def fetch_followed_artists (c : SpotifyClient) (fuel : Nat) :
    Option (Except String (List ArtistRow)) :=
  match followedLoop (fun after => c.current_user_followed_artists 50 after) fuel none [] [] with
  | none => none
  | some (.error e) => some (.error e)
  | some (.ok (items, _)) => some (.ok (items.map artistRow))

/-- A row of the playlists dataset. -/
structure PlaylistRow where
  playlistId : String
  playlistName : String
  description : String
  tracksCount : Nat
  isPublic : Bool

/-- The per-playlist projection inside `fetch_playlists`;
`pl.get('description', '')` becomes `getD ""`. -/
def playlistRow (pl : RawPlaylist) : PlaylistRow :=
  { playlistId := pl.id
    playlistName := pl.name
    description := pl.description.getD ""
    tracksCount := pl.tracks.total
    isPublic := pl.public }

/-- `fetch_playlists`: paginates `current_user_playlists` with the
default limit 50. -/
def fetch_playlists (c : SpotifyClient) (fuel : Nat) :
    Option (Except String (List PlaylistRow)) :=
  match paginate_results fuel c.current_user_playlists 50 with
  | none => none
  | some (.error e) => some (.error e)
  | some (.ok (items, _)) => some (.ok (items.map playlistRow))

/-- A row of the playlist-tracks dataset. -/
structure PlaylistTrackRow where
  playlistId : String
  playlistName : String
  trackName : String
  artist : String
  album : String
  durationMs : Nat
  addedById : String
  addedAt : String

/-- The per-item projection inside `fetch_playlist_tracks`; every
missing optional field falls back to its documented default. -/
def playlistTrackRow (playlist_id playlist_name : String) (item : RawPlaylistItem) :
    PlaylistTrackRow :=
  let tr := item.track.getD { name := none, artists := none, album := none, duration_ms := none }
  let ab := item.added_by.getD { id := none }
  { playlistId := playlist_id
    playlistName := playlist_name
    trackName := tr.name.getD ""
    artist := joinComma ((tr.artists.getD []).map (fun a => a.name.getD ""))
    album := (tr.album.getD { name := none }).name.getD ""
    durationMs := tr.duration_ms.getD 0
    addedById := ab.id.getD "Unknown"
    addedAt := item.added_at.getD "Unknown" }

/-- The `while True` loop of `fetch_playlist_tracks` (limit 100), with
fuel: the loop ends immediately on an empty page, otherwise appends the
projected rows and ends when the page is shorter than the limit. -/
def playlistTracksLoop (c : SpotifyClient) (playlist_id playlist_name : String) :
    Nat → Nat → List PlaylistTrackRow → Option (Except String (List PlaylistTrackRow))
  | 0, _, _ => none
  | fuel + 1, offset, acc =>
    match c.playlist_items playlist_id offset 100 with
    | .error e => some (.error e)
    | .ok resp =>
      let items := resp.getItems
      if items.isEmpty then some (.ok acc)
      else
        let acc2 := acc ++ items.map (playlistTrackRow playlist_id playlist_name)
        if items.length < 100 then some (.ok acc2)
        else playlistTracksLoop c playlist_id playlist_name fuel (offset + 100) acc2

/-- `fetch_playlist_tracks(playlist_id, playlist_name)`. -/
def fetch_playlist_tracks (c : SpotifyClient) (fuel : Nat)
    (playlist_id playlist_name : String) : Option (Except String (List PlaylistTrackRow)) :=
  playlistTracksLoop c playlist_id playlist_name fuel 0 []

/-- A row of the top-artists dataset (no artist id column). -/
structure TopArtistRow where
  artistName : String
  genres : String
  followers : Nat
  popularity : Nat

/-- The per-artist projection inside `fetch_top_artists`. -/
def topArtistRow (art : RawArtist) : TopArtistRow :=
  { artistName := art.name
    genres := joinComma art.genres
    followers := art.followers.total
    popularity := art.popularity }

/-- `fetch_top_artists`: paginates `current_user_top_artists` with
limit 50. -/
def fetch_top_artists (c : SpotifyClient) (fuel : Nat) :
    Option (Except String (List TopArtistRow)) :=
  match paginate_results fuel c.current_user_top_artists 50 with
  | none => none
  | some (.error e) => some (.error e)
  | some (.ok (items, _)) => some (.ok (items.map topArtistRow))

/-- A row of the saved-albums dataset. -/
structure SavedAlbumRow where
  albumName : String
  artist : String
  releaseDate : String
  totalTracks : Nat

/-- The per-item projection inside `fetch_saved_albums`. -/
def savedAlbumRow (item : SavedAlbumItem) : SavedAlbumRow :=
  { albumName := item.album.name
    artist := joinComma (item.album.artists.map ArtistRef.name)
    releaseDate := item.album.release_date
    totalTracks := item.album.total_tracks }

/-- `fetch_saved_albums`: paginates `current_user_saved_albums` with the
default limit 50. -/
def fetch_saved_albums (c : SpotifyClient) (fuel : Nat) :
    Option (Except String (List SavedAlbumRow)) :=
  match paginate_results fuel c.current_user_saved_albums 50 with
  | none => none
  | some (.error e) => some (.error e)
  | some (.ok (items, _)) => some (.ok (items.map savedAlbumRow))

/-- An in-memory table: the header row of column names and one cell row
per dataset entry (the model of a `pd.DataFrame` as the script uses it —
fixed columns, no index). -/
structure Frame where
  header : List String
  rows : List (List String)

/-- Builds a frame from a dataset the way `pd.DataFrame(list_of_dicts)`
does: the columns come from the rows' keys (every row of a collection
has the same fixed keys), so an empty dataset yields a frame with no
columns at all — not a header of column names. -/
def frameOf {α : Type} (header : List String) (cells : α → List String)
    (data : List α) : Frame :=
  { header := if data.isEmpty then [] else header, rows := data.map cells }

def profileHeader : List String :=
  ["User ID", "Display Name", "Email", "Country", "Followers"]

def profileCells (r : ProfileRow) : List String :=
  [r.userId, r.displayName, r.email, r.country, toString r.followers]

def savedTrackHeader : List String :=
  ["Track Name", "Artist", "Album", "Release Date", "Duration (ms)"]

def savedTrackCells (r : SavedTrackRow) : List String :=
  [r.trackName, r.artist, r.album, r.releaseDate, toString r.durationMs]

def recentHeader : List String :=
  ["Track Name", "Artist", "Album", "Played At"]

def recentCells (r : RecentRow) : List String :=
  [r.trackName, r.artist, r.album, r.playedAt]

def artistHeader : List String :=
  ["Artist Name", "Artist ID", "Genres", "Followers", "Popularity"]

def artistCells (r : ArtistRow) : List String :=
  [r.artistName, r.artistId, r.genres, toString r.followers, toString r.popularity]

def playlistHeader : List String :=
  ["Playlist ID", "Playlist Name", "Description", "Tracks Count", "Public"]

def playlistCells (r : PlaylistRow) : List String :=
  [r.playlistId, r.playlistName, r.description, toString r.tracksCount, toString r.isPublic]

def playlistTrackHeader : List String :=
  ["Playlist ID", "Playlist Name", "Track Name", "Artist", "Album",
   "Duration (ms)", "Added By ID", "Added At"]

def playlistTrackCells (r : PlaylistTrackRow) : List String :=
  [r.playlistId, r.playlistName, r.trackName, r.artist, r.album,
   toString r.durationMs, r.addedById, r.addedAt]

def topArtistHeader : List String :=
  ["Artist Name", "Genres", "Followers", "Popularity"]

def topArtistCells (r : TopArtistRow) : List String :=
  [r.artistName, r.genres, toString r.followers, toString r.popularity]

def savedAlbumHeader : List String :=
  ["Album Name", "Artist", "Release Date", "Total Tracks"]

def savedAlbumCells (r : SavedAlbumRow) : List String :=
  [r.albumName, r.artist, toString r.releaseDate, toString r.totalTracks]

/-- The filename pattern used by `export_csv`:
`f'spotify_{name}_{timestamp}.csv'`. -/
def csvFileName (name ts : String) : String :=
  "spotify_" ++ name ++ "_" ++ ts ++ ".csv"

/-- `export_csv(dataframes, timestamp)`: writes one file per named
frame; the result lists the files written, each under its filename. -/
def export_csv (frames : List (String × Frame)) (ts : String) :
    List (String × Frame) :=
  frames.map (fun nf => (csvFileName nf.1 ts, nf.2))

/-- Sequencing of a fuel-indexed, exception-carrying step: fuel
exhaustion (`none`) and a raised error both stop the run. -/
def runBind {α β : Type} (x : Option (Except String α))
    (f : α → Option (Except String β)) : Option (Except String β) :=
  match x with
  | none => none
  | some (.error e) => some (.error e)
  | some (.ok a) => f a

/-- Lifts a plain fallible step into the run. -/
def runStep {α : Type} (x : Except String α) : Option (Except String α) :=
  some x

/-- The `for pl in playlists_meta` loop of the main script: fetches the
tracks of each playlist in order and concatenates the results. -/
def fetchAllPlaylistTracks (c : SpotifyClient) (fuel : Nat) :
    List PlaylistRow → Option (Except String (List PlaylistTrackRow))
  | [] => some (.ok [])
  | pl :: rest =>
    runBind (fetch_playlist_tracks c fuel pl.playlistId pl.playlistName) fun rows =>
    runBind (fetchAllPlaylistTracks c fuel rest) fun more =>
    some (.ok (rows ++ more))

/-- The main execution: fetch every collection in script order, build
the frame for each, and export all of them with the single run
timestamp `ts`. The result is the list of files written, `none` when
some pagination loop did not finish within the fuel, `.error` when an
unrecovered exception aborted the run (in which case no file at all is
written, since `export_csv` runs only after every fetch). -/
def runMain (c : SpotifyClient) (ts : String) (fuel : Nat) :
    Option (Except String (List (String × Frame))) :=
  runBind (runStep (fetch_user_profile c)) fun user_data =>
  runBind (fetch_saved_tracks c fuel) fun tracks_data =>
  let recent_data := fetch_recently_played c
  runBind (fetch_followed_artists c fuel) fun artists_data =>
  runBind (fetch_playlists c fuel) fun playlists_meta =>
  runBind (fetchAllPlaylistTracks c fuel playlists_meta) fun playlist_tracks =>
  runBind (fetch_top_artists c fuel) fun top_artists_data =>
  runBind (fetch_saved_albums c fuel) fun saved_albums_data =>
  some (.ok (export_csv
    [("user_data", frameOf profileHeader profileCells [user_data]),
     ("saved_tracks", frameOf savedTrackHeader savedTrackCells tracks_data),
     ("recently_played_tracks", frameOf recentHeader recentCells recent_data),
     ("followed_artists", frameOf artistHeader artistCells artists_data),
     ("playlists", frameOf playlistHeader playlistCells playlists_meta),
     ("playlist_tracks", frameOf playlistTrackHeader playlistTrackCells playlist_tracks),
     ("top_artists", frameOf topArtistHeader topArtistCells top_artists_data),
     ("saved_albums", frameOf savedAlbumHeader savedAlbumCells saved_albums_data)] ts))

/-- The eight collection names, in the order the script exports them. -/
def collectionNames : List String :=
  ["user_data", "saved_tracks", "recently_played_tracks", "followed_artists",
   "playlists", "playlist_tracks", "top_artists", "saved_albums"]

/-- The files a run leaves on disk: those written by `export_csv` when
the run completed, none when it aborted. -/
def runExports (c : SpotifyClient) (ts : String) (fuel : Nat) :
    List (String × Frame) :=
  match runMain c ts fuel with
  | some (.ok files) => files
  | _ => []

/-! Helper lemmas about the paginator. -/

/-- The fetch operation serves the given pages, without raising, at
consecutive offsets starting at `offset` and stepping by `limit`. -/
def ServesPages {α : Type} (fetch : PageFetch α) (limit offset : Nat)
    (pages : List (List α)) : Prop :=
  ∀ i, i < pages.length →
    ∃ r, fetch (offset + i * limit) limit = .ok r ∧ r.getItems = pages.getD i []

theorem paginateAux_pages {α : Type} (limit : Nat) :
    ∀ (full : List (List α)) (lastPage : List α) (fetch : PageFetch α)
      (fuel offset : Nat) (acc : List α) (calls : Nat),
      (∀ p ∈ full, p.length = limit) →
      lastPage.length < limit →
      ServesPages fetch limit offset (full ++ [lastPage]) →
      full.length < fuel →
      paginateAux fetch limit fuel offset acc calls =
        some (.ok (acc ++ (full ++ [lastPage]).flatten, calls + (full.length + 1))) := by
  intro full
  induction full with
  | nil =>
    intro lastPage fetch fuel offset acc calls _ hlast hserve hfuel
    obtain ⟨f, rfl⟩ : ∃ f, fuel = f + 1 := ⟨fuel - 1, by omega⟩
    obtain ⟨r, hr, hitems⟩ := hserve 0 (by simp)
    simp only [Nat.zero_mul, Nat.add_zero] at hr
    simp only [List.getD_cons_zero, List.nil_append] at hitems
    simp [paginateAux, hr, hitems, hlast]
  | cons p rest ih =>
    intro lastPage fetch fuel offset acc calls hfull hlast hserve hfuel
    obtain ⟨f, rfl⟩ : ∃ f, fuel = f + 1 := ⟨fuel - 1, by omega⟩
    obtain ⟨r, hr, hitems⟩ := hserve 0 (by simp)
    simp only [Nat.zero_mul, Nat.add_zero] at hr
    simp only [List.cons_append, List.getD_cons_zero] at hitems
    have hp : p.length = limit := hfull p (by simp)
    have hserve2 : ServesPages fetch limit (offset + limit) (rest ++ [lastPage]) := by
      intro i hi
      obtain ⟨r2, hr2, hit2⟩ := hserve (i + 1) (by simp at hi ⊢; omega)
      refine ⟨r2, ?_, ?_⟩
      · have harith : offset + (i + 1) * limit = offset + limit + i * limit := by ring
        rwa [harith] at hr2
      · simpa using hit2
    have hrec := ih lastPage fetch f (offset + limit) (acc ++ p) (calls + 1)
      (fun q hq => hfull q (by simp [hq])) hlast hserve2 (by simp at hfuel; omega)
    simp only [paginateAux, hr]
    rw [hitems, hp]
    simp only [Nat.lt_irrefl, if_false]
    rw [hrec]
    simp [Nat.add_assoc, Nat.add_comm, Nat.add_left_comm]

/-- Claim C1: if the fetch operation returns pages of exactly `limit`
items at offsets `0, limit, 2*limit, ...` up to a final page with fewer
than `limit` items (possibly empty), `paginate_results` returns exactly
the concatenation of all those pages in fetch order — no duplicates, no
omissions — after one call per page. -/
theorem paginate_concat_pages {α : Type} (full : List (List α)) (lastPage : List α)
    (fetch : PageFetch α) (limit fuel : Nat)
    (hfull : ∀ p ∈ full, p.length = limit)
    (hlast : lastPage.length < limit)
    (hserve : ServesPages fetch limit 0 (full ++ [lastPage]))
    (hfuel : full.length < fuel) :
    paginate_results fuel fetch limit =
      some (.ok ((full ++ [lastPage]).flatten, full.length + 1)) := by
  have h := paginateAux_pages limit full lastPage fetch fuel 0 [] 0 hfull hlast hserve hfuel
  simpa [paginate_results] using h

/-- Witness for C1 at limit 2 with pages `[1, 2]` and `[3]`. -/
theorem paginate_concat_pages_witness :
    paginate_results 5
      (fun offset _ => .ok ⟨some (if offset = 0 then [1, 2] else [3])⟩) 2 =
      some (.ok ([1, 2, 3], 2)) := by
  have h := paginate_concat_pages [[1, 2]] [3]
    (fun offset _ => .ok ⟨some (if offset = 0 then [1, 2] else [3])⟩) 2 5
    (by intro p hp; simp at hp; simp [hp])
    (by simp)
    (by
      intro i hi
      simp at hi
      interval_cases i
      · exact ⟨_, rfl, rfl⟩
      · exact ⟨_, rfl, rfl⟩)
    (by simp)
  simpa using h

/-- The canonical endpoint holding exactly the items of `xs`, served in
offset-indexed pages. -/
def listFetch {α : Type} (xs : List α) : PageFetch α :=
  fun offset limit => .ok ⟨some ((xs.drop offset).take limit)⟩

theorem paginateAux_listFetch {α : Type} (limit : Nat) (hlim : 0 < limit) :
    ∀ (fuel : Nat) (whole xs : List α) (offset : Nat) (acc : List α) (calls : Nat),
      whole.drop offset = xs →
      xs.length / limit < fuel →
      paginateAux (listFetch whole) limit fuel offset acc calls =
        some (.ok (acc ++ xs, calls + (xs.length / limit + 1))) := by
  intro fuel
  induction fuel with
  | zero =>
    intro whole xs offset acc calls _ hfuel
    exact absurd hfuel (Nat.not_lt_zero _)
  | succ f ih =>
    intro whole xs offset acc calls hdrop hfuel
    by_cases hshort : xs.length < limit
    · have htake : xs.take limit = xs := List.take_of_length_le (by omega)
      have hdiv : xs.length / limit = 0 := Nat.div_eq_of_lt hshort
      simp [paginateAux, listFetch, ApiResponse.getItems, hdrop, htake, hshort, hdiv]
    · have hlen : (xs.take limit).length = limit := by
        simp [List.length_take]; omega
      have hdrop2 : whole.drop (offset + limit) = xs.drop limit := by
        rw [← List.drop_drop, hdrop]
      have hdivpos : xs.length / limit = (xs.length - limit) / limit + 1 := by
        have h0 : xs.length - limit + limit = xs.length := by omega
        conv_lhs => rw [← h0]
        rw [Nat.add_div_right _ hlim]
      have hfuel2 : (xs.drop limit).length / limit < f := by
        rw [List.length_drop]
        have h1 : (xs.length - limit) / limit + 1 < f + 1 := by
          rw [← hdivpos]; exact hfuel
        exact Nat.lt_of_succ_lt_succ h1
      have hrec := ih whole (xs.drop limit) (offset + limit) (acc ++ xs.take limit)
        (calls + 1) hdrop2 hfuel2
      simp only [paginateAux, listFetch, ApiResponse.getItems, Option.getD_some, hdrop]
      rw [hlen, if_neg (Nat.lt_irrefl limit), hrec]
      simp only [List.append_assoc, List.take_append_drop, List.length_drop]
      rw [hdivpos]
      simp [Nat.add_assoc, Nat.add_comm, Nat.add_left_comm]

/-- Claim C2: on an endpoint holding exactly `N` items served in pages
of size `limit > 0`, `paginate_results` retrieves all `N` items and
invokes the fetch operation exactly `N / limit + 1` times when `limit`
divides `N` (including `N = 0`: one call returning an empty page), and
exactly `⌈N / limit⌉` times otherwise, then terminates. -/
theorem paginate_call_count {α : Type} (xs : List α) (limit fuel : Nat)
    (hlim : 0 < limit) (hfuel : xs.length / limit < fuel) :
    paginate_results fuel (listFetch xs) limit =
      some (.ok (xs, if limit ∣ xs.length then xs.length / limit + 1
                     else (xs.length + limit - 1) / limit)) := by
  have h := paginateAux_listFetch limit hlim fuel xs xs 0 [] 0 (List.drop_zero xs) hfuel
  have hcalls : (if limit ∣ xs.length then xs.length / limit + 1
      else (xs.length + limit - 1) / limit) = xs.length / limit + 1 := by
    by_cases hdvd : limit ∣ xs.length
    · simp [hdvd]
    · have hpos : 0 < xs.length := by
        rcases Nat.eq_zero_or_pos xs.length with h0 | h0
        · exact absurd (h0 ▸ Nat.dvd_zero limit) hdvd
        · exact h0
      have h1 : xs.length + limit - 1 = (xs.length - 1) + limit := by omega
      have h2 : ((xs.length - 1) + limit) / limit = (xs.length - 1) / limit + 1 :=
        Nat.add_div_right _ hlim
      have h3 : (xs.length - 1) / limit = xs.length / limit := by
        have h4 : xs.length - 1 + 1 = xs.length := by omega
        have h5 := Nat.succ_div (xs.length - 1) limit
        rw [h4] at h5
        simp [h5, hdvd]
      simp [hdvd, h1, h2, h3]
  rw [hcalls]
  simpa [paginate_results] using h

/-- Witness for C2: 5 items at limit 2 need 3 calls, 4 items at limit 2
need 3 calls, 0 items need 1 call. -/
theorem paginate_call_count_witness :
    paginate_results 9 (listFetch [1, 2, 3, 4, 5]) 2 = some (.ok ([1, 2, 3, 4, 5], 3)) ∧
    paginate_results 9 (listFetch [1, 2, 3, 4]) 2 = some (.ok ([1, 2, 3, 4], 3)) ∧
    paginate_results 9 (listFetch ([] : List Nat)) 2 = some (.ok ([], 1)) := by
  refine ⟨?_, ?_, ?_⟩
  · have h := paginate_call_count [1, 2, 3, 4, 5] 2 9 (by omega) (by simp)
    simpa using h
  · have h := paginate_call_count [1, 2, 3, 4] 2 9 (by omega) (by simp)
    simpa using h
  · have h := paginate_call_count ([] : List Nat) 2 9 (by omega) (by simp)
    simpa using h

/-- Claim C10: a response that is a mapping without an "items" key is
treated as an empty page without raising: it contributes no items and,
zero being fewer than `limit`, pagination terminates at that call. -/
theorem paginate_missing_items {α : Type} (full : List (List α)) (fetch : PageFetch α)
    (limit fuel : Nat)
    (hfull : ∀ p ∈ full, p.length = limit)
    (hlim : 0 < limit)
    (hserve : ∀ i, i < full.length →
      ∃ r, fetch (i * limit) limit = .ok r ∧ r.getItems = full.getD i [])
    (hmissing : ∃ r, fetch (full.length * limit) limit = .ok r ∧ r.items = none)
    (hfuel : full.length < fuel) :
    paginate_results fuel fetch limit = some (.ok (full.flatten, full.length + 1)) := by
  obtain ⟨rm, hrm, hnone⟩ := hmissing
  have hserve2 : ServesPages fetch limit 0 (full ++ [[]]) := by
    intro i hi
    simp only [List.length_append, List.length_cons, List.length_nil] at hi
    by_cases hcase : i < full.length
    · obtain ⟨r, hr, hit⟩ := hserve i hcase
      refine ⟨r, by simpa using hr, ?_⟩
      rw [hit, List.getD_append _ _ _ _ hcase]
    · have hi2 : i = full.length := by omega
      subst hi2
      refine ⟨rm, by simpa using hrm, ?_⟩
      have : (full ++ [[]]).getD full.length ([] : List α) = [] := by
        rw [List.getD_eq_getElem?_getD, List.getElem?_append_right (Nat.le_refl _)]
        simp
      rw [this]
      simp [ApiResponse.getItems, hnone]
  have h := paginateAux_pages limit full [] fetch fuel 0 [] 0 hfull
    (by simpa using hlim) hserve2 hfuel
  simpa [paginate_results] using h

/-- Witness for C10: one full page of 2 then a keyless response. -/
theorem paginate_missing_items_witness :
    paginate_results 5
      (fun offset _ => .ok (if offset = 0 then ⟨some [7, 8]⟩ else ⟨none⟩)) 2 =
      some (.ok ([7, 8], 2)) := by
  have h := paginate_missing_items [[7, 8]]
    (fun offset _ => .ok (if offset = 0 then ⟨some [7, 8]⟩ else ⟨none⟩)) 2 5
    (by intro p hp; simp at hp; simp [hp])
    (by omega)
    (by
      intro i hi
      simp at hi
      subst hi
      exact ⟨_, rfl, rfl⟩)
    ⟨⟨none⟩, rfl, rfl⟩
    (by simp)
  simpa using h

/-! Cursor-based pagination (followed artists). -/

/-- The sequence of cursors the loop passes to the fetch operation when
the successive batches are `full` followed by a short batch: the start
cursor, then after each full batch the identifier of its last item. -/
def cursorSeq (start : Option String) : List (List RawArtist) → List (Option String)
  | [] => [start]
  | b :: bs => start :: cursorSeq (some (lastArtistId b)) bs

theorem cursorSeq_eq (start : Option String) (full : List (List RawArtist)) :
    cursorSeq start full = start :: full.map (fun b => some (lastArtistId b)) := by
  induction full generalizing start with
  | nil => rfl
  | cons b bs ih => simp [cursorSeq, ih]

theorem followedLoop_pages :
    ∀ (full : List (List RawArtist)) (lastB : List RawArtist)
      (fetch : Option String → Except String FollowedArtistsResponse)
      (fuel : Nat) (start : Option String) (acc : List RawArtist)
      (trace : List (Option String)),
      (∀ p ∈ full, p.length = 50) →
      lastB.length < 50 →
      List.Forall₂ (fun cur batch => ∃ r, fetch cur = .ok r ∧ r.artists.items = batch)
        (cursorSeq start full) (full ++ [lastB]) →
      full.length < fuel →
      followedLoop fetch fuel start acc trace =
        some (.ok (acc ++ (full ++ [lastB]).flatten, trace ++ cursorSeq start full)) := by
  intro full
  induction full with
  | nil =>
    intro lastB fetch fuel start acc trace _ hlast hserve hfuel
    obtain ⟨f, rfl⟩ : ∃ f, fuel = f + 1 := ⟨fuel - 1, by omega⟩
    rw [cursorSeq] at hserve
    rcases hserve with _ | ⟨⟨r, hr, hitems⟩, _⟩
    simp [followedLoop, hr, hitems, hlast, cursorSeq]
  | cons b bs ih =>
    intro lastB fetch fuel start acc trace hfull hlast hserve hfuel
    obtain ⟨f, rfl⟩ : ∃ f, fuel = f + 1 := ⟨fuel - 1, by omega⟩
    rw [cursorSeq] at hserve
    simp only [List.cons_append] at hserve
    rcases hserve with _ | ⟨⟨r, hr, hitems⟩, hrest⟩
    have hb : b.length = 50 := hfull b (by simp)
    have hrec := ih lastB fetch f (some (lastArtistId b)) (acc ++ b) (trace ++ [start])
      (fun q hq => hfull q (by simp [hq])) hlast hrest (by simp at hfuel; omega)
    simp only [followedLoop, hr]
    rw [hitems, hb]
    simp only [Nat.lt_irrefl, if_false]
    rw [hrec]
    simp [cursorSeq]

/-- Claim C3: the followed-artists cursor loop accumulates the
concatenation of all batches in order and terminates exactly when a
batch has fewer than 50 items; the first fetch is made with no cursor
and every continuing iteration passes as cursor the identifier of the
last item of the most recent batch (never a numeric offset). -/
theorem followed_artists_cursor (full : List (List RawArtist)) (lastB : List RawArtist)
    (c : SpotifyClient) (fuel : Nat)
    (hfull : ∀ p ∈ full, p.length = 50)
    (hlast : lastB.length < 50)
    (hserve : List.Forall₂
      (fun cur batch => ∃ r, c.current_user_followed_artists 50 cur = .ok r ∧
        r.artists.items = batch)
      (cursorSeq none full) (full ++ [lastB]))
    (hfuel : full.length < fuel) :
    followedLoop (fun after => c.current_user_followed_artists 50 after) fuel none [] [] =
      some (.ok ((full ++ [lastB]).flatten,
        none :: full.map (fun b => some (lastArtistId b)))) ∧
    fetch_followed_artists c fuel =
      some (.ok ((full ++ [lastB]).flatten.map artistRow)) := by
  have h := followedLoop_pages full lastB
    (fun after => c.current_user_followed_artists 50 after) fuel none [] []
    hfull hlast hserve hfuel
  rw [cursorSeq_eq] at h
  simp only [List.nil_append] at h
  refine ⟨h, ?_⟩
  rw [fetch_followed_artists, h]

/-- Witness for C3: one full batch of 50 artists followed by one short
batch; the second call carries the last artist's id as cursor. -/
theorem followed_artists_cursor_witness :
    followedLoop
      (fun after =>
        .ok ⟨⟨if after = none
              then List.replicate 50 { name := "n", id := "a", genres := [],
                                       followers := ⟨0⟩, popularity := 0 }
              else [{ name := "m", id := "b", genres := [],
                      followers := ⟨1⟩, popularity := 2 }]⟩⟩)
      3 none [] [] =
      some (.ok ((List.replicate 50
          ({ name := "n", id := "a", genres := [], followers := ⟨0⟩,
             popularity := 0 } : RawArtist)) ++
          [{ name := "m", id := "b", genres := [], followers := ⟨1⟩, popularity := 2 }],
        [none, some "a"])) := by
  have h := (followed_artists_cursor
    [List.replicate 50 { name := "n", id := "a", genres := [],
                         followers := ⟨0⟩, popularity := 0 }]
    [{ name := "m", id := "b", genres := [], followers := ⟨1⟩, popularity := 2 }]
    { current_user := .error "unused"
      current_user_saved_tracks := fun _ _ => .error "unused"
      current_user_recently_played := fun _ => .error "unused"
      current_user_followed_artists := fun _ after =>
        .ok ⟨⟨if after = none
              then List.replicate 50 { name := "n", id := "a", genres := [],
                                       followers := ⟨0⟩, popularity := 0 }
              else [{ name := "m", id := "b", genres := [],
                      followers := ⟨1⟩, popularity := 2 }]⟩⟩
      current_user_playlists := fun _ _ => .error "unused"
      playlist_items := fun _ _ _ => .error "unused"
      current_user_top_artists := fun _ _ => .error "unused"
      current_user_saved_albums := fun _ _ => .error "unused" }
    3
    (by intro p hp; simp at hp; simp [hp])
    (by simp)
    (by
      refine List.Forall₂.cons ⟨_, rfl, rfl⟩ (List.Forall₂.cons ⟨_, rfl, ?_⟩ List.Forall₂.nil)
      have hlid : lastArtistId (List.replicate 50
          { name := "n", id := "a", genres := [], followers := ⟨0⟩,
            popularity := 0 }) = "a" := rfl
      simp [cursorSeq, hlid])
    (by simp)).1
  have hlid : lastArtistId (List.replicate 50
      { name := "n", id := "a", genres := [], followers := ⟨0⟩,
        popularity := 0 }) = "a" := rfl
  simpa [hlid] using h

/-! Properties of the comma-and-space join. -/

theorem intercalate_go_le (s : String) :
    ∀ (as : List String) (acc : String),
      acc.length ≤ (String.intercalate.go acc s as).length := by
  intro as
  induction as with
  | nil => intro acc; exact Nat.le_refl _
  | cons a as ih =>
    intro acc
    have h1 : acc.length ≤ (acc ++ s ++ a).length := by
      rw [String.length_append, String.length_append]
      omega
    exact Nat.le_trans h1 (ih (acc ++ s ++ a))

theorem intercalate_go_mem_le (s : String) :
    ∀ (as : List String) (acc x : String), x ∈ as →
      x.length ≤ (String.intercalate.go acc s as).length := by
  intro as
  induction as with
  | nil => intro acc x hx; cases hx
  | cons a as ih =>
    intro acc x hx
    rcases List.mem_cons.mp hx with rfl | hx2
    · have h1 : x.length ≤ (acc ++ s ++ x).length := by
        rw [String.length_append, String.length_append]
        omega
      exact Nat.le_trans h1 (intercalate_go_le s as (acc ++ s ++ x))
    · exact ih (acc ++ s ++ a) x hx2

theorem length_pos_of_ne_empty {x : String} (h : x ≠ "") : 0 < x.length := by
  cases x with
  | mk data =>
    cases data with
    | nil => exact absurd rfl h
    | cons c cs => simp [String.length]

theorem joinComma_ne_empty {ss : List String} {x : String} (hx : x ∈ ss)
    (hne : x ≠ "") : joinComma ss ≠ "" := by
  cases ss with
  | nil => cases hx
  | cons a as =>
    have hxpos : 0 < x.length := length_pos_of_ne_empty hne
    have hlen : 0 < (joinComma (a :: as)).length := by
      rcases List.mem_cons.mp hx with rfl | hx2
      · exact Nat.lt_of_lt_of_le hxpos (intercalate_go_le ", " as x)
      · exact Nat.lt_of_lt_of_le hxpos (intercalate_go_mem_le ", " as a x hx2)
    intro hcontra
    rw [hcontra] at hlen
    simp [String.length] at hlen

/-- A saved-track item whose track carries no artists at all. -/
def noArtistItem : SavedTrackItem :=
  ⟨⟨"Song", [], ⟨"Alb", "2020-01-01"⟩, 1000⟩⟩

/-- A test profile. -/
def testProfile : Profile :=
  ⟨"u1", "User", "u@example.com", "US", ⟨0⟩⟩

/-- A client on which every endpoint succeeds with an empty collection. -/
def emptyClient : SpotifyClient where
  current_user := .ok testProfile
  current_user_saved_tracks := fun _ _ => .ok ⟨some []⟩
  current_user_recently_played := fun _ => .ok ⟨some []⟩
  current_user_followed_artists := fun _ _ => .ok ⟨⟨[]⟩⟩
  current_user_playlists := fun _ _ => .ok ⟨some []⟩
  playlist_items := fun _ _ _ => .ok ⟨some []⟩
  current_user_top_artists := fun _ _ => .ok ⟨some []⟩
  current_user_saved_albums := fun _ _ => .ok ⟨some []⟩

/-- Counterexample to claim C5 as stated: a saved-track item whose
track has an empty artist list is served by the endpoint and the Saved
Tracks fetcher produces its row with an empty "Artist" field. -/
theorem saved_tracks_artist_cex :
    fetch_saved_tracks
      { emptyClient with
        current_user_saved_tracks := fun _ _ => .ok ⟨some [noArtistItem]⟩ } 1 =
      some (.ok [savedTrackRow noArtistItem]) ∧
    (savedTrackRow noArtistItem).artist = "" :=
  ⟨rfl, rfl⟩

/-- Claim C5 (amended): for every saved-track item, the row's "Artist"
field equals the names of all artists on the track joined by ", " in
source order, with no trailing separator even for exactly one artist;
it is non-empty whenever the track has at least one artist with a
non-empty name; a track with no artists can yield an empty field, as
the counterexample shows. -/
theorem saved_tracks_artist_join (item : SavedTrackItem) :
    (savedTrackRow item).artist = joinComma (item.track.artists.map ArtistRef.name) ∧
    (∀ a, item.track.artists = [a] → (savedTrackRow item).artist = a.name) ∧
    ((∃ a ∈ item.track.artists, a.name ≠ "") → (savedTrackRow item).artist ≠ "") := by
  refine ⟨rfl, ?_, ?_⟩
  · intro a ha
    simp only [savedTrackRow, ha, List.map_cons, List.map_nil]
    rfl
  · rintro ⟨a, hmem, hne⟩
    have hm : a.name ∈ item.track.artists.map ArtistRef.name :=
      List.mem_map_of_mem _ hmem
    exact joinComma_ne_empty hm hne

/-- Witness for C5 (amended) on one-artist and two-artist tracks. -/
theorem saved_tracks_artist_join_witness :
    (savedTrackRow ⟨⟨"S", [⟨"Alice"⟩], ⟨"A", "2020"⟩, 1⟩⟩).artist = "Alice" ∧
    (savedTrackRow ⟨⟨"S", [⟨"Alice"⟩, ⟨"Bob"⟩], ⟨"A", "2020"⟩, 1⟩⟩).artist ≠ "" :=
  ⟨(saved_tracks_artist_join ⟨⟨"S", [⟨"Alice"⟩], ⟨"A", "2020"⟩, 1⟩⟩).2.1 ⟨"Alice"⟩ rfl,
   (saved_tracks_artist_join ⟨⟨"S", [⟨"Alice"⟩, ⟨"Bob"⟩], ⟨"A", "2020"⟩, 1⟩⟩).2.2
     ⟨⟨"Alice"⟩, by simp, by decide⟩⟩

/-- Claim C7: a missing optional field is substituted with its
documented default and never raises: a playlist item missing
`added_by` yields "Added By ID" = "Unknown", a missing `added_at`
yields "Unknown", a playlist missing `description` yields the empty
string, and a playlist item's missing track fields yield empty strings
or 0. -/
theorem optional_field_defaults (pid pname : String) (item : RawPlaylistItem)
    (pl : RawPlaylist) :
    (item.added_by = none → (playlistTrackRow pid pname item).addedById = "Unknown") ∧
    (item.added_at = none → (playlistTrackRow pid pname item).addedAt = "Unknown") ∧
    (pl.description = none → (playlistRow pl).description = "") ∧
    (item.track = none →
      (playlistTrackRow pid pname item).trackName = "" ∧
      (playlistTrackRow pid pname item).artist = "" ∧
      (playlistTrackRow pid pname item).album = "" ∧
      (playlistTrackRow pid pname item).durationMs = 0) := by
  refine ⟨?_, ?_, ?_, ?_⟩ <;>
    intro h <;>
    simp [playlistTrackRow, playlistRow, h, joinComma, String.intercalate]

/-- Witness for C7 on a playlist item with every optional field absent
and a playlist without a description. -/
theorem optional_field_defaults_witness :
    (⟨none, none, none⟩ : RawPlaylistItem).added_by = none ∧
    (playlistTrackRow "p" "P" ⟨none, none, none⟩).addedById = "Unknown" ∧
    (playlistTrackRow "p" "P" ⟨none, none, none⟩).addedAt = "Unknown" ∧
    (playlistRow ⟨"p", "P", none, ⟨0⟩, true⟩).description = "" ∧
    (playlistTrackRow "p" "P" ⟨none, none, none⟩).trackName = "" ∧
    (playlistTrackRow "p" "P" ⟨none, none, none⟩).artist = "" ∧
    (playlistTrackRow "p" "P" ⟨none, none, none⟩).album = "" ∧
    (playlistTrackRow "p" "P" ⟨none, none, none⟩).durationMs = 0 := by
  have h := optional_field_defaults "p" "P" ⟨none, none, none⟩ ⟨"p", "P", none, ⟨0⟩, true⟩
  obtain ⟨hq, _, _, _⟩ := h.2.2.2 rfl
  exact ⟨rfl, h.1 rfl, h.2.1 rfl, h.2.2.1 rfl, by
    obtain ⟨h1, h2, h3, h4⟩ := h.2.2.2 rfl
    exact ⟨h1, h2, h3, h4⟩⟩

/-! The playlist-tracks dataset. -/

theorem playlistTrackRow_fields (pid pname : String) (item : RawPlaylistItem) :
    (playlistTrackRow pid pname item).playlistId = pid ∧
    (playlistTrackRow pid pname item).playlistName = pname :=
  ⟨rfl, rfl⟩

theorem playlistTracksLoop_carries (c : SpotifyClient) (pid pname : String) :
    ∀ (fuel offset : Nat) (acc rows : List PlaylistTrackRow),
      playlistTracksLoop c pid pname fuel offset acc = some (.ok rows) →
      (∀ r ∈ acc, r.playlistId = pid ∧ r.playlistName = pname) →
      ∀ r ∈ rows, r.playlistId = pid ∧ r.playlistName = pname := by
  intro fuel
  induction fuel with
  | zero =>
    intro offset acc rows h
    simp [playlistTracksLoop] at h
  | succ f ih =>
    intro offset acc rows h hacc
    simp only [playlistTracksLoop] at h
    rcases hpi : c.playlist_items pid offset 100 with e | resp
    · rw [hpi] at h
      simp at h
    · rw [hpi] at h
      simp only at h
      have hext : ∀ r ∈ acc ++ resp.getItems.map (playlistTrackRow pid pname),
          r.playlistId = pid ∧ r.playlistName = pname := by
        intro r hr
        rcases List.mem_append.mp hr with hr2 | hr2
        · exact hacc r hr2
        · obtain ⟨it, _, rfl⟩ := List.mem_map.mp hr2
          exact playlistTrackRow_fields pid pname it
      by_cases hemp : resp.getItems.isEmpty
      · rw [if_pos hemp] at h
        have hra : rows = acc := by
          have := Option.some.inj h
          exact (Except.ok.inj this).symm
        subst hra
        exact hacc
      · rw [if_neg hemp] at h
        by_cases hshort : resp.getItems.length < 100
        · rw [if_pos hshort] at h
          have hra : rows = acc ++ resp.getItems.map (playlistTrackRow pid pname) := by
            have := Option.some.inj h
            exact (Except.ok.inj this).symm
          subst hra
          exact hext
        · rw [if_neg hshort] at h
          exact ih (offset + 100) _ rows h hext

theorem fetchAllPlaylistTracks_concat (c : SpotifyClient) (fuel : Nat) :
    ∀ (pls : List PlaylistRow) (f : PlaylistRow → List PlaylistTrackRow),
      (∀ pl ∈ pls,
        fetch_playlist_tracks c fuel pl.playlistId pl.playlistName = some (.ok (f pl))) →
      fetchAllPlaylistTracks c fuel pls = some (.ok ((pls.map f).flatten)) := by
  intro pls
  induction pls with
  | nil => intro f _; rfl
  | cons pl rest ih =>
    intro f hf
    have h1 := hf pl (by simp)
    have h2 := ih f (fun q hq => hf q (by simp [hq]))
    simp only [fetchAllPlaylistTracks, h1, h2, runBind]
    simp

theorem fetch_playlist_tracks_empty (c : SpotifyClient) (fuel : Nat)
    (pid pname : String) (hfuel : 0 < fuel)
    (h : ∃ r, c.playlist_items pid 0 100 = .ok r ∧ r.getItems = []) :
    fetch_playlist_tracks c fuel pid pname = some (.ok []) := by
  obtain ⟨f, rfl⟩ : ∃ f, fuel = f + 1 := ⟨fuel - 1, by omega⟩
  obtain ⟨r, hr, hempty⟩ := h
  simp [fetch_playlist_tracks, playlistTracksLoop, hr, hempty]

/-- Claim C6: the playlist-tracks dataset is the concatenation, in the
order the Playlists fetcher returned the playlists, of
`fetch_playlist_tracks` for each playlist; every row carries the id and
name of the playlist it came from; and a playlist with 0 tracks
contributes exactly 0 rows without error (so with playlists of 3 and 0
tracks the dataset has exactly 3 rows — see the witness). -/
theorem playlist_tracks_dataset (c : SpotifyClient) (fuel : Nat) :
    (∀ (pls : List PlaylistRow) (f : PlaylistRow → List PlaylistTrackRow),
      (∀ pl ∈ pls,
        fetch_playlist_tracks c fuel pl.playlistId pl.playlistName = some (.ok (f pl))) →
      fetchAllPlaylistTracks c fuel pls = some (.ok ((pls.map f).flatten))) ∧
    (∀ pid pname rows,
      fetch_playlist_tracks c fuel pid pname = some (.ok rows) →
      ∀ r ∈ rows, r.playlistId = pid ∧ r.playlistName = pname) ∧
    (∀ pid pname, 0 < fuel →
      (∃ r, c.playlist_items pid 0 100 = .ok r ∧ r.getItems = []) →
      fetch_playlist_tracks c fuel pid pname = some (.ok [])) := by
  refine ⟨fetchAllPlaylistTracks_concat c fuel, ?_, fetch_playlist_tracks_empty c fuel⟩
  intro pid pname rows h
  exact playlistTracksLoop_carries c pid pname fuel 0 [] rows h (by simp)

/-- The metadata rows of the two test playlists: "p1" with 3 tracks and
"p2" with 0 tracks. -/
def pl3 : PlaylistRow := ⟨"p1", "One", "", 3, true⟩

def pl0 : PlaylistRow := ⟨"p2", "Two", "", 0, true⟩

/-- Three bare playlist items. -/
def threeItems : List RawPlaylistItem :=
  [⟨none, none, none⟩, ⟨none, none, none⟩, ⟨none, none, none⟩]

/-- A client whose playlist "p1" holds three items and every other
playlist is empty. -/
def twoPlaylistClient : SpotifyClient :=
  { emptyClient with
    playlist_items := fun pid _ _ =>
      .ok ⟨some (if pid = "p1" then threeItems else [])⟩ }

/-- Witness for C6: with playlists of 3 and 0 tracks the dataset is the
3 rows of the first playlist, each carrying its id and name, and the
empty playlist contributes no rows and no error. -/
theorem playlist_tracks_dataset_witness :
    fetchAllPlaylistTracks twoPlaylistClient 1 [pl3, pl0] =
      some (.ok (threeItems.map (playlistTrackRow "p1" "One"))) ∧
    (threeItems.map (playlistTrackRow "p1" "One")).length = 3 ∧
    (∀ r ∈ threeItems.map (playlistTrackRow "p1" "One"),
      r.playlistId = "p1" ∧ r.playlistName = "One") ∧
    fetch_playlist_tracks twoPlaylistClient 1 "p2" "Two" = some (.ok []) := by
  have hth := playlist_tracks_dataset twoPlaylistClient 1
  refine ⟨?_, rfl, ?_, ?_⟩
  · have h := hth.1 [pl3, pl0]
      (fun pl => if pl.playlistId = "p1"
                 then threeItems.map (playlistTrackRow "p1" "One") else [])
      (by
        intro pl hpl
        rcases List.mem_cons.mp hpl with rfl | hpl2
        · rfl
        · rcases List.mem_cons.mp hpl2 with rfl | hpl3
          · rfl
          · cases hpl3)
    simpa using h
  · exact hth.2.1 "p1" "One" (threeItems.map (playlistTrackRow "p1" "One")) rfl
  · exact hth.2.2 "p2" "Two" (by omega) ⟨⟨some []⟩, rfl, rfl⟩

/-! Run-level lemmas: failure propagation and the export step. -/

theorem runBind_eq_ok {α β : Type} {x : Option (Except String α)}
    {f : α → Option (Except String β)} {b : β}
    (h : runBind x f = some (.ok b)) : ∃ a, x = some (.ok a) ∧ f a = some (.ok b) := by
  rcases x with _ | v
  · simp [runBind] at h
  · rcases v with e | a
    · simp [runBind] at h
    · exact ⟨a, rfl, h⟩

theorem runStep_eq_ok {α : Type} {x : Except String α} {a : α}
    (h : runStep x = some (.ok a)) : x = .ok a := by
  simpa [runStep] using h

theorem paginate_results_error {α : Type} (fetch : PageFetch α) (limit fuel : Nat)
    (e : String) (h : fetch 0 limit = .error e) (hf : 0 < fuel) :
    paginate_results fuel fetch limit = some (.error e) := by
  obtain ⟨f, rfl⟩ : ∃ f, fuel = f + 1 := ⟨fuel - 1, by omega⟩
  simp [paginate_results, paginateAux, h]

theorem fetch_saved_tracks_error (c : SpotifyClient) (fuel : Nat) (e : String)
    (h : c.current_user_saved_tracks 0 50 = .error e) (hf : 0 < fuel) :
    fetch_saved_tracks c fuel = some (.error e) := by
  rw [fetch_saved_tracks, paginate_results_error c.current_user_saved_tracks 50 fuel e h hf]

theorem fetch_saved_tracks_not_ok (c : SpotifyClient) (fuel : Nat) (e : String)
    (h : c.current_user_saved_tracks 0 50 = .error e) :
    ∀ rows, fetch_saved_tracks c fuel ≠ some (.ok rows) := by
  intro rows hcontra
  cases fuel with
  | zero => simp [fetch_saved_tracks, paginate_results, paginateAux] at hcontra
  | succ f =>
    rw [fetch_saved_tracks_error c (f + 1) e h (Nat.succ_pos f)] at hcontra
    simp at hcontra

theorem fetch_followed_artists_error (c : SpotifyClient) (fuel : Nat) (e : String)
    (h : c.current_user_followed_artists 50 none = .error e) (hf : 0 < fuel) :
    fetch_followed_artists c fuel = some (.error e) := by
  obtain ⟨f, rfl⟩ : ∃ f, fuel = f + 1 := ⟨fuel - 1, by omega⟩
  rw [fetch_followed_artists]
  simp [followedLoop, h]

theorem fetch_followed_artists_not_ok (c : SpotifyClient) (fuel : Nat) (e : String)
    (h : c.current_user_followed_artists 50 none = .error e) :
    ∀ rows, fetch_followed_artists c fuel ≠ some (.ok rows) := by
  intro rows hcontra
  cases fuel with
  | zero => simp [fetch_followed_artists, followedLoop] at hcontra
  | succ f =>
    rw [fetch_followed_artists_error c (f + 1) e h (Nat.succ_pos f)] at hcontra
    simp at hcontra

theorem fetch_playlists_error (c : SpotifyClient) (fuel : Nat) (e : String)
    (h : c.current_user_playlists 0 50 = .error e) (hf : 0 < fuel) :
    fetch_playlists c fuel = some (.error e) := by
  rw [fetch_playlists, paginate_results_error c.current_user_playlists 50 fuel e h hf]

theorem fetch_playlists_not_ok (c : SpotifyClient) (fuel : Nat) (e : String)
    (h : c.current_user_playlists 0 50 = .error e) :
    ∀ rows, fetch_playlists c fuel ≠ some (.ok rows) := by
  intro rows hcontra
  cases fuel with
  | zero => simp [fetch_playlists, paginate_results, paginateAux] at hcontra
  | succ f =>
    rw [fetch_playlists_error c (f + 1) e h (Nat.succ_pos f)] at hcontra
    simp at hcontra

theorem fetch_playlist_tracks_error (c : SpotifyClient) (fuel : Nat)
    (pid pname : String) (e : String)
    (h : c.playlist_items pid 0 100 = .error e) (hf : 0 < fuel) :
    fetch_playlist_tracks c fuel pid pname = some (.error e) := by
  obtain ⟨f, rfl⟩ : ∃ f, fuel = f + 1 := ⟨fuel - 1, by omega⟩
  simp [fetch_playlist_tracks, playlistTracksLoop, h]

theorem fetch_playlist_tracks_not_ok (c : SpotifyClient) (fuel : Nat)
    (pid pname : String) (e : String) (h : c.playlist_items pid 0 100 = .error e) :
    ∀ rows, fetch_playlist_tracks c fuel pid pname ≠ some (.ok rows) := by
  intro rows hcontra
  cases fuel with
  | zero => simp [fetch_playlist_tracks, playlistTracksLoop] at hcontra
  | succ f =>
    rw [fetch_playlist_tracks_error c (f + 1) pid pname e h (Nat.succ_pos f)] at hcontra
    simp at hcontra

theorem fetch_top_artists_error (c : SpotifyClient) (fuel : Nat) (e : String)
    (h : c.current_user_top_artists 0 50 = .error e) (hf : 0 < fuel) :
    fetch_top_artists c fuel = some (.error e) := by
  rw [fetch_top_artists, paginate_results_error c.current_user_top_artists 50 fuel e h hf]

theorem fetch_top_artists_not_ok (c : SpotifyClient) (fuel : Nat) (e : String)
    (h : c.current_user_top_artists 0 50 = .error e) :
    ∀ rows, fetch_top_artists c fuel ≠ some (.ok rows) := by
  intro rows hcontra
  cases fuel with
  | zero => simp [fetch_top_artists, paginate_results, paginateAux] at hcontra
  | succ f =>
    rw [fetch_top_artists_error c (f + 1) e h (Nat.succ_pos f)] at hcontra
    simp at hcontra

theorem fetch_saved_albums_error (c : SpotifyClient) (fuel : Nat) (e : String)
    (h : c.current_user_saved_albums 0 50 = .error e) (hf : 0 < fuel) :
    fetch_saved_albums c fuel = some (.error e) := by
  rw [fetch_saved_albums, paginate_results_error c.current_user_saved_albums 50 fuel e h hf]

theorem fetch_saved_albums_not_ok (c : SpotifyClient) (fuel : Nat) (e : String)
    (h : c.current_user_saved_albums 0 50 = .error e) :
    ∀ rows, fetch_saved_albums c fuel ≠ some (.ok rows) := by
  intro rows hcontra
  cases fuel with
  | zero => simp [fetch_saved_albums, paginate_results, paginateAux] at hcontra
  | succ f =>
    rw [fetch_saved_albums_error c (f + 1) e h (Nat.succ_pos f)] at hcontra
    simp at hcontra

/-- Decomposition of a completed run into the outcome of every step. -/
theorem runMain_ok_elim {c : SpotifyClient} {ts : String} {fuel : Nat}
    {files : List (String × Frame)}
    (h : runMain c ts fuel = some (.ok files)) :
    ∃ u tracks artists pls ptr top alb,
      fetch_user_profile c = .ok u ∧
      fetch_saved_tracks c fuel = some (.ok tracks) ∧
      fetch_followed_artists c fuel = some (.ok artists) ∧
      fetch_playlists c fuel = some (.ok pls) ∧
      fetchAllPlaylistTracks c fuel pls = some (.ok ptr) ∧
      fetch_top_artists c fuel = some (.ok top) ∧
      fetch_saved_albums c fuel = some (.ok alb) ∧
      files = export_csv
        [("user_data", frameOf profileHeader profileCells [u]),
         ("saved_tracks", frameOf savedTrackHeader savedTrackCells tracks),
         ("recently_played_tracks",
           frameOf recentHeader recentCells (fetch_recently_played c)),
         ("followed_artists", frameOf artistHeader artistCells artists),
         ("playlists", frameOf playlistHeader playlistCells pls),
         ("playlist_tracks", frameOf playlistTrackHeader playlistTrackCells ptr),
         ("top_artists", frameOf topArtistHeader topArtistCells top),
         ("saved_albums", frameOf savedAlbumHeader savedAlbumCells alb)] ts := by
  rw [runMain] at h
  obtain ⟨u, hu, h⟩ := runBind_eq_ok h
  obtain ⟨tracks, ht, h⟩ := runBind_eq_ok h
  obtain ⟨artists, ha, h⟩ := runBind_eq_ok h
  obtain ⟨pls, hp, h⟩ := runBind_eq_ok h
  obtain ⟨ptr, hptr, h⟩ := runBind_eq_ok h
  obtain ⟨top, htop, h⟩ := runBind_eq_ok h
  obtain ⟨alb, halb, h⟩ := runBind_eq_ok h
  exact ⟨u, tracks, artists, pls, ptr, top, alb, runStep_eq_ok hu, ht, ha, hp, hptr,
    htop, halb, (Except.ok.inj (Option.some.inj h)).symm⟩

theorem runExports_eq_nil {c : SpotifyClient} {ts : String} {fuel : Nat}
    (h : ∀ files, runMain c ts fuel ≠ some (.ok files)) :
    runExports c ts fuel = [] := by
  rw [runExports]
  rcases hm : runMain c ts fuel with _ | v
  · rfl
  · rcases v with e | files
    · rfl
    · exact absurd hm (h files)

/-- Claim C4 (amended): if the recently-played call raises, the fetcher
returns an empty collection; the run continues, still producing output
files for all collections, with the recently-played frame holding no
data rows — and, its columns being derived from the empty data, no
column-name header either; and every other fetcher propagates its
failure instead of catching it. -/
theorem recently_played_tolerated (c : SpotifyClient) (ts : String) (fuel : Nat)
    (e : String) (hrp : c.current_user_recently_played 50 = .error e) :
    fetch_recently_played c = [] ∧
    (∀ u tracks artists pls ptr top alb,
      fetch_user_profile c = .ok u →
      fetch_saved_tracks c fuel = some (.ok tracks) →
      fetch_followed_artists c fuel = some (.ok artists) →
      fetch_playlists c fuel = some (.ok pls) →
      fetchAllPlaylistTracks c fuel pls = some (.ok ptr) →
      fetch_top_artists c fuel = some (.ok top) →
      fetch_saved_albums c fuel = some (.ok alb) →
      runMain c ts fuel = some (.ok (export_csv
        [("user_data", frameOf profileHeader profileCells [u]),
         ("saved_tracks", frameOf savedTrackHeader savedTrackCells tracks),
         ("recently_played_tracks", { header := [], rows := [] }),
         ("followed_artists", frameOf artistHeader artistCells artists),
         ("playlists", frameOf playlistHeader playlistCells pls),
         ("playlist_tracks", frameOf playlistTrackHeader playlistTrackCells ptr),
         ("top_artists", frameOf topArtistHeader topArtistCells top),
         ("saved_albums", frameOf savedAlbumHeader savedAlbumCells alb)] ts))) ∧
    (∀ (c2 : SpotifyClient) (fuel2 : Nat) (e2 : String), 0 < fuel2 →
      (c2.current_user = .error e2 → fetch_user_profile c2 = .error e2) ∧
      (c2.current_user_saved_tracks 0 50 = .error e2 →
        fetch_saved_tracks c2 fuel2 = some (.error e2)) ∧
      (c2.current_user_followed_artists 50 none = .error e2 →
        fetch_followed_artists c2 fuel2 = some (.error e2)) ∧
      (c2.current_user_playlists 0 50 = .error e2 →
        fetch_playlists c2 fuel2 = some (.error e2)) ∧
      (∀ pid pname, c2.playlist_items pid 0 100 = .error e2 →
        fetch_playlist_tracks c2 fuel2 pid pname = some (.error e2)) ∧
      (c2.current_user_top_artists 0 50 = .error e2 →
        fetch_top_artists c2 fuel2 = some (.error e2)) ∧
      (c2.current_user_saved_albums 0 50 = .error e2 →
        fetch_saved_albums c2 fuel2 = some (.error e2))) := by
  have hempty : fetch_recently_played c = [] := by
    simp [fetch_recently_played, hrp]
  refine ⟨hempty, ?_, ?_⟩
  · intro u tracks artists pls ptr top alb hu ht ha hp hptr htop halb
    rw [runMain, hu]
    simp only [runStep, runBind, ht, ha, hp, hptr, htop, halb, hempty]
    simp [frameOf]
  · intro c2 fuel2 e2 hf
    exact ⟨fun h => by simp [fetch_user_profile, h],
           fun h => fetch_saved_tracks_error c2 fuel2 e2 h hf,
           fun h => fetch_followed_artists_error c2 fuel2 e2 h hf,
           fun h => fetch_playlists_error c2 fuel2 e2 h hf,
           fun pid pname h => fetch_playlist_tracks_error c2 fuel2 pid pname e2 h hf,
           fun h => fetch_top_artists_error c2 fuel2 e2 h hf,
           fun h => fetch_saved_albums_error c2 fuel2 e2 h hf⟩

/-- The empty client with a failing recently-played endpoint. -/
def rpFailClient : SpotifyClient :=
  { emptyClient with current_user_recently_played := fun _ => .error "boom" }

/-- Counterexample to claim C4 as stated: when the recently-played call
raises, the dataset is empty and `pd.DataFrame` of an empty list has no
columns, so the frame exported for recently_played_tracks carries no
column-name header at all even though the collection's schema is
non-empty — the file does not contain "only a header row". -/
theorem recently_played_header_cex :
    fetch_recently_played rpFailClient = [] ∧
    frameOf recentHeader recentCells (fetch_recently_played rpFailClient) =
      { header := [], rows := [] } ∧
    recentHeader ≠ [] :=
  ⟨rfl, rfl, by decide⟩

/-- Witness for C4 (amended): the failing recently-played call leaves an
empty dataset and the run still exports all eight files. -/
theorem recently_played_tolerated_witness :
    fetch_recently_played rpFailClient = [] ∧
    runMain rpFailClient "T" 1 = some (.ok (export_csv
      [("user_data", frameOf profileHeader profileCells
          [⟨"u1", "User", "u@example.com", "US", 0⟩]),
       ("saved_tracks", frameOf savedTrackHeader savedTrackCells []),
       ("recently_played_tracks", { header := [], rows := [] }),
       ("followed_artists", frameOf artistHeader artistCells []),
       ("playlists", frameOf playlistHeader playlistCells []),
       ("playlist_tracks", frameOf playlistTrackHeader playlistTrackCells []),
       ("top_artists", frameOf topArtistHeader topArtistCells []),
       ("saved_albums", frameOf savedAlbumHeader savedAlbumCells [])] "T")) := by
  have h := recently_played_tolerated rpFailClient "T" 1 "boom" rfl
  exact ⟨h.1, h.2.1 ⟨"u1", "User", "u@example.com", "US", 0⟩ [] [] [] [] [] []
    rfl rfl rfl rfl rfl rfl rfl⟩

/-- Claim C8: when any fetch step other than Recently Played raises,
the failure propagates (the run ends in that error rather than a file
list) and no file is exported — the export step runs only after every
fetch, so collections not yet processed get no file. -/
theorem fetch_failure_aborts (c : SpotifyClient) (ts : String) (fuel : Nat)
    (e : String) :
    (c.current_user = .error e →
      runMain c ts fuel = some (.error e) ∧ runExports c ts fuel = []) ∧
    (c.current_user_saved_tracks 0 50 = .error e → runExports c ts fuel = []) ∧
    (c.current_user_followed_artists 50 none = .error e → runExports c ts fuel = []) ∧
    (c.current_user_playlists 0 50 = .error e → runExports c ts fuel = []) ∧
    (∀ pl rest, fetch_playlists c fuel = some (.ok (pl :: rest)) →
      c.playlist_items pl.playlistId 0 100 = .error e → runExports c ts fuel = []) ∧
    (c.current_user_top_artists 0 50 = .error e → runExports c ts fuel = []) ∧
    (c.current_user_saved_albums 0 50 = .error e → runExports c ts fuel = []) := by
  refine ⟨?_, ?_, ?_, ?_, ?_, ?_, ?_⟩
  · intro h
    have hm : runMain c ts fuel = some (.error e) := by
      rw [runMain]
      simp [runStep, runBind, fetch_user_profile, h]
    exact ⟨hm, by simp [runExports, hm]⟩
  · intro h
    refine runExports_eq_nil (fun files hcontra => ?_)
    obtain ⟨_, _, _, _, _, _, _, _, ht, _⟩ := runMain_ok_elim hcontra
    exact fetch_saved_tracks_not_ok c fuel e h _ ht
  · intro h
    refine runExports_eq_nil (fun files hcontra => ?_)
    obtain ⟨_, _, _, _, _, _, _, _, _, ha, _⟩ := runMain_ok_elim hcontra
    exact fetch_followed_artists_not_ok c fuel e h _ ha
  · intro h
    refine runExports_eq_nil (fun files hcontra => ?_)
    obtain ⟨_, _, _, _, _, _, _, _, _, _, hp, _⟩ := runMain_ok_elim hcontra
    exact fetch_playlists_not_ok c fuel e h _ hp
  · intro pl rest hpls h
    refine runExports_eq_nil (fun files hcontra => ?_)
    obtain ⟨_, _, _, pls, ptr, _, _, _, _, _, hp, hptr, _⟩ := runMain_ok_elim hcontra
    rw [hpls] at hp
    have hplrest : pl :: rest = pls := Except.ok.inj (Option.some.inj hp)
    rw [← hplrest] at hptr
    simp only [fetchAllPlaylistTracks] at hptr
    obtain ⟨rows, hrows, _⟩ := runBind_eq_ok hptr
    exact fetch_playlist_tracks_not_ok c fuel pl.playlistId pl.playlistName e h _ hrows
  · intro h
    refine runExports_eq_nil (fun files hcontra => ?_)
    obtain ⟨_, _, _, _, _, _, _, _, _, _, _, _, htop, _⟩ := runMain_ok_elim hcontra
    exact fetch_top_artists_not_ok c fuel e h _ htop
  · intro h
    refine runExports_eq_nil (fun files hcontra => ?_)
    obtain ⟨_, _, _, _, _, _, _, _, _, _, _, _, _, halb, _⟩ := runMain_ok_elim hcontra
    exact fetch_saved_albums_not_ok c fuel e h _ halb

/-- Witness for C8: a failing saved-tracks endpoint leaves no exported
file at all. -/
theorem fetch_failure_aborts_witness :
    ({ emptyClient with current_user_saved_tracks := fun _ _ => .error "boom" }
      : SpotifyClient).current_user_saved_tracks 0 50 = .error "boom" ∧
    runExports
      { emptyClient with current_user_saved_tracks := fun _ _ => .error "boom" }
      "T" 1 = [] :=
  ⟨rfl, (fetch_failure_aborts
    { emptyClient with current_user_saved_tracks := fun _ _ => .error "boom" }
    "T" 1 "boom").2.1 rfl⟩

/-- Claim C9: a completed run writes exactly one file per collection,
in export order, every filename following the pattern
`spotify_<collection>_<timestamp>.csv` with the single run timestamp
shared by all of them. -/
theorem export_matched_set (c : SpotifyClient) (ts : String) (fuel : Nat)
    (files : List (String × Frame)) (h : runMain c ts fuel = some (.ok files)) :
    files.map Prod.fst = collectionNames.map (fun n => csvFileName n ts) ∧
    ∀ fl ∈ files, ∃ n ∈ collectionNames,
      fl.1 = "spotify_" ++ n ++ "_" ++ ts ++ ".csv" := by
  obtain ⟨u, tracks, artists, pls, ptr, top, alb, _, _, _, _, _, _, _, hfiles⟩ :=
    runMain_ok_elim h
  have hmap : files.map Prod.fst = collectionNames.map (fun n => csvFileName n ts) := by
    rw [hfiles]
    simp [export_csv, collectionNames, csvFileName]
  refine ⟨hmap, ?_⟩
  intro fl hfl
  have hmem : fl.1 ∈ files.map Prod.fst := List.mem_map_of_mem _ hfl
  rw [hmap] at hmem
  obtain ⟨n, hn, heq⟩ := List.mem_map.mp hmem
  exact ⟨n, hn, by rw [← heq]; rfl⟩

/-- Witness for C9 on the empty client with a fixed timestamp. -/
theorem export_matched_set_witness :
    runMain emptyClient "20240101_000000" 1 =
      some (.ok (runExports emptyClient "20240101_000000" 1)) ∧
    (runExports emptyClient "20240101_000000" 1).map Prod.fst =
      collectionNames.map (fun n => csvFileName n "20240101_000000") :=
  ⟨rfl, (export_matched_set emptyClient "20240101_000000" 1
    (runExports emptyClient "20240101_000000" 1) rfl).1⟩

end SpotifyExporter
